import Mathlib

/-!
# Verification of the merge/commit pipeline

A shallow embedding of the three-store merge/commit pipeline of the
file-service repository (`Code/main.py`, `Code/database.py`,
`Code/minio_service.py`): a durable object store, a relational metadata
catalog mapped by `FileMetadata`, and an in-memory TTL result cache, tied
together by the three HTTP handlers `upload_file`,
`merge_files_temporarily` and `save_merged_dataset`.

Tables (pandas DataFrames) are modelled as a list of column names plus a
list of rows of string cells.  The CSV codec (`pandas.to_csv` /
`pandas.read_csv`) is modelled character-for-character on the quote-free
fragment: header line then one line per row, cells separated by commas,
a trailing newline, blank lines skipped on decode.  The Excel codec is
treated as an opaque capability (the blob carries the table).  The
record-oriented JSON serialisation (`to_json(orient="records")` /
`read_json(orient="records")`) is modelled structurally as a list of
(column, value) association lists; the surrounding JSON text layer is
elided (a serialised table is never the empty string, since even an
empty one serialises as the two-character text for an empty array, so
Python truthiness of the cached payload coincides with presence).
-/

set_option autoImplicit false

namespace FileService

/-! ## Character-level line/cell splitting and joining -/

/-- Join chunks of characters with a separator character between
consecutive chunks (the character-level core of `to_csv`). -/
def intercalateCh (sep : Char) : List (List Char) → List Char
  | [] => []
  | [x] => x
  | x :: y :: ys => x ++ sep :: intercalateCh sep (y :: ys)

/-- Split a character list at every occurrence of the separator
(the character-level core of `read_csv`).  Always returns at least one
(possibly empty) chunk. -/
def splitCh (sep : Char) : List Char → List (List Char)
  | [] => [[]]
  | c :: cs =>
    let r := splitCh sep cs
    if c = sep then [] :: r
    else
      match r with
      | [] => [[c]]
      | x :: xs => (c :: x) :: xs

theorem splitCh_ne_nil (sep : Char) (l : List Char) : splitCh sep l ≠ [] := by
  induction l with
  | nil => simp [splitCh]
  | cons c cs ih =>
    simp only [splitCh]
    split
    · simp
    · match h : splitCh sep cs with
      | [] => exact absurd h ih
      | x :: xs => simp

theorem splitCh_of_not_mem (sep : Char) (l : List Char) (h : sep ∉ l) :
    splitCh sep l = [l] := by
  induction l with
  | nil => rfl
  | cons c cs ih =>
    simp only [List.mem_cons, not_or] at h
    have hcs : ¬c = sep := fun hc => h.1 hc.symm
    simp only [splitCh, ih h.2, if_neg hcs]

theorem splitCh_append_sep (sep : Char) (x r : List Char) (hx : sep ∉ x) :
    splitCh sep (x ++ sep :: r) = x :: splitCh sep r := by
  induction x with
  | nil => simp [splitCh]
  | cons c cs ih =>
    simp only [List.mem_cons, not_or] at hx
    have hcs : ¬c = sep := fun hc => hx.1 hc.symm
    simp only [List.cons_append, splitCh, if_neg hcs, List.append_eq]
    rw [ih hx.2]

theorem splitCh_intercalateCh (sep : Char) (parts : List (List Char))
    (hne : parts ≠ []) (hfree : ∀ p ∈ parts, sep ∉ p) :
    splitCh sep (intercalateCh sep parts) = parts := by
  induction parts with
  | nil => exact absurd rfl hne
  | cons x xs ih =>
    cases xs with
    | nil =>
      simp only [intercalateCh]
      exact splitCh_of_not_mem sep x (hfree x (by simp))
    | cons y ys =>
      simp only [intercalateCh]
      rw [splitCh_append_sep sep x _ (hfree x (by simp))]
      rw [ih (by simp) (fun p hp => hfree p (List.mem_cons_of_mem x hp))]

theorem intercalateCh_append_nil (sep : Char) (parts : List (List Char))
    (hne : parts ≠ []) :
    intercalateCh sep parts ++ [sep] = intercalateCh sep (parts ++ [[]]) := by
  induction parts with
  | nil => exact absurd rfl hne
  | cons x xs ih =>
    cases xs with
    | nil => simp [intercalateCh]
    | cons y ys =>
      calc intercalateCh sep (x :: y :: ys) ++ [sep]
          = x ++ sep :: (intercalateCh sep (y :: ys) ++ [sep]) := by
            simp [intercalateCh, List.cons_append, List.append_assoc]
        _ = x ++ sep :: intercalateCh sep ((y :: ys) ++ [[]]) := by
            rw [ih (by simp)]
        _ = intercalateCh sep ((x :: y :: ys) ++ [[]]) := by
            simp [intercalateCh]

theorem mem_intercalateCh (sep : Char) (parts : List (List Char)) (a : Char)
    (ha : a ∈ intercalateCh sep parts) : a = sep ∨ ∃ p ∈ parts, a ∈ p := by
  induction parts with
  | nil => simp [intercalateCh] at ha
  | cons x xs ih =>
    cases xs with
    | nil =>
      simp only [intercalateCh] at ha
      exact Or.inr ⟨x, by simp, ha⟩
    | cons y ys =>
      simp only [intercalateCh, List.mem_append, List.mem_cons] at ha
      rcases ha with hx | hsep | hrest
      · exact Or.inr ⟨x, by simp, hx⟩
      · exact Or.inl hsep
      · rcases ih hrest with h | ⟨p, hp, hap⟩
        · exact Or.inl h
        · exact Or.inr ⟨p, List.mem_cons_of_mem x hp, hap⟩

theorem intercalateCh_cons_ne_nil (sep : Char) (x : List Char)
    (xs : List (List Char)) (hx : x ≠ []) :
    intercalateCh sep (x :: xs) ≠ [] := by
  cases xs with
  | nil => simpa [intercalateCh] using hx
  | cons y ys => simp [intercalateCh]

/-! ## Tables (pandas DataFrames, cells as strings) -/

/-- A decoded tabular file: ordered column names plus rows of cells. -/
structure Table where
  cols : List String
  rows : List (List String)
deriving DecidableEq, Repr

/-- Every row has exactly one cell per column. -/
def Table.WF (t : Table) : Prop := ∀ r ∈ t.rows, r.length = t.cols.length

instance (t : Table) : Decidable t.WF := by
  unfold Table.WF; infer_instance

/-- A string that the quote-free CSV fragment handles verbatim: nonempty
and free of the cell and line separators. -/
def goodStr (s : String) : Prop :=
  s.data ≠ [] ∧ ',' ∉ s.data ∧ '\n' ∉ s.data

instance (s : String) : Decidable (goodStr s) := by
  unfold goodStr; infer_instance

/-- All column names and cells of the table are CSV-safe. -/
def Table.goodCsv (t : Table) : Prop :=
  (∀ x ∈ t.cols, goodStr x) ∧ ∀ r ∈ t.rows, ∀ x ∈ r, goodStr x

instance (t : Table) : Decidable t.goodCsv := by
  unfold Table.goodCsv; infer_instance

/-! ## Record-oriented serialisation

`DataFrame.to_json(orient="records")` / `to_dict(orient="records")`
turn a table into one object per row, keyed by column name in column
order; `pd.read_json(..., orient="records")` rebuilds the table, taking
the column list from the records (so an empty record list loses the
column names).  The JSON text layer is elided: the cache holds the
records structure directly. -/

/-- One serialised row-object per row (main.py line 123 / 129). -/
def toRecords (t : Table) : List (List (String × String)) :=
  t.rows.map (fun r => t.cols.zip r)

/-- Rebuild a table from record-oriented data (main.py line 151):
columns are the first record's keys; an empty record list yields the
empty, column-less table. -/
def fromRecords : List (List (String × String)) → Table
  | [] => ⟨[], []⟩
  | r :: rest => ⟨r.map Prod.fst, (r :: rest).map (fun row => row.map Prod.snd)⟩

theorem fromRecords_toRecords (t : Table) (hwf : t.WF) (hne : t.rows ≠ []) :
    fromRecords (toRecords t) = t := by
  obtain ⟨cols, rows⟩ := t
  cases rows with
  | nil => exact absurd rfl hne
  | cons r rest =>
    have hr : r.length = cols.length := hwf r (by simp)
    simp only [toRecords, fromRecords, List.map_cons]
    congr 1
    · exact List.map_fst_zip cols r (le_of_eq hr.symm)
    · simp only [← List.map_cons, List.map_map]
      have : ∀ row ∈ r :: rest, ((fun row => List.map Prod.snd row) ∘
          fun row => cols.zip row) row = row := by
        intro row hrow
        simpa using List.map_snd_zip cols row (le_of_eq (hwf row hrow))
      simpa using List.map_congr_left this

/-! ## The CSV codec (`to_csv(index=False)` / `read_csv`), quote-free fragment -/

/-- One CSV line: cells joined by commas. -/
def lineOfCells (cells : List String) : List Char :=
  intercalateCh ',' (cells.map String.data)

/-- `merged_df.to_csv(output_buffer, index=False)` (main.py line 160):
header line, then one line per row, separated by newlines, with a final
trailing newline. -/
def csvEncode (t : Table) : String :=
  String.mk (intercalateCh '\n' (lineOfCells t.cols :: t.rows.map lineOfCells) ++ ['\n'])

/-- `pd.read_csv` (main.py line 36): split into lines (blank lines
skipped), first line is the header, the rest are rows; a file with no
non-blank lines raises (pandas `EmptyDataError`). -/
def csvDecodeE (s : String) : Except String Table :=
  match (splitCh '\n' s.data).filter (· ≠ []) with
  | [] => .error "No columns to parse from file"
  | h :: rest =>
    .ok ⟨(splitCh ',' h).map String.mk, rest.map (fun l => (splitCh ',' l).map String.mk)⟩

theorem lineOfCells_ne_nil (cells : List String) (hne : cells ≠ [])
    (hgood : ∀ x ∈ cells, goodStr x) : lineOfCells cells ≠ [] := by
  cases cells with
  | nil => exact absurd rfl hne
  | cons x xs =>
    exact intercalateCh_cons_ne_nil ',' x.data (xs.map String.data)
      (hgood x (by simp)).1

theorem newline_not_mem_lineOfCells (cells : List String)
    (hgood : ∀ x ∈ cells, goodStr x) : '\n' ∉ lineOfCells cells := by
  intro hmem
  rcases mem_intercalateCh ',' (cells.map String.data) '\n' hmem with h | ⟨p, hp, hnp⟩
  · exact absurd h (by decide)
  · rcases List.mem_map.mp hp with ⟨x, hx, rfl⟩
    exact (hgood x hx).2.2 hnp

theorem splitCh_lineOfCells (cells : List String) (hne : cells ≠ [])
    (hgood : ∀ x ∈ cells, goodStr x) :
    splitCh ',' (lineOfCells cells) = cells.map String.data := by
  refine splitCh_intercalateCh ',' (cells.map String.data) (by simpa using hne) ?_
  intro p hp
  rcases List.mem_map.mp hp with ⟨x, hx, rfl⟩
  exact (hgood x hx).2.1

theorem map_mk_map_data (cells : List String) :
    (cells.map String.data).map String.mk = cells := by
  rw [List.map_map]
  calc cells.map (String.mk ∘ String.data)
      = cells.map id := List.map_congr_left (fun x _ => rfl)
    _ = cells := List.map_id cells

theorem csvDecodeE_csvEncode (t : Table) (hwf : t.WF) (hcols : t.cols ≠ [])
    (hgood : t.goodCsv) : csvDecodeE (csvEncode t) = .ok t := by
  obtain ⟨hgc, hgr⟩ := hgood
  obtain ⟨cols, rows⟩ := t
  simp only [Table.WF] at hwf
  simp only at hwf hcols hgc hgr
  have hrowsne : ∀ r ∈ rows, r ≠ [] := by
    intro r hr hr0
    have := hwf r hr
    rw [hr0] at this
    exact hcols (List.eq_nil_of_length_eq_zero this.symm)
  have hlines : ∀ l ∈ lineOfCells cols :: rows.map lineOfCells, '\n' ∉ l := by
    intro l hl
    rcases List.mem_cons.mp hl with rfl | hl
    · exact newline_not_mem_lineOfCells cols hgc
    · rcases List.mem_map.mp hl with ⟨r, hr, rfl⟩
      exact newline_not_mem_lineOfCells r (hgr r hr)
  have hlnn : ∀ l ∈ lineOfCells cols :: rows.map lineOfCells, l ≠ [] := by
    intro l hl
    rcases List.mem_cons.mp hl with rfl | hl
    · exact lineOfCells_ne_nil cols hcols hgc
    · rcases List.mem_map.mp hl with ⟨r, hr, rfl⟩
      exact lineOfCells_ne_nil r (hrowsne r hr) (hgr r hr)
  unfold csvDecodeE csvEncode
  rw [show (String.mk (intercalateCh '\n'
        (lineOfCells (Table.mk cols rows).cols
          :: (Table.mk cols rows).rows.map lineOfCells) ++ ['\n'])).data
      = intercalateCh '\n' (lineOfCells cols :: rows.map lineOfCells) ++ ['\n']
    from rfl]
  rw [intercalateCh_append_nil '\n' _ (by simp)]
  rw [splitCh_intercalateCh '\n' _ (by simp) ?hfree]
  case hfree =>
    intro p hp
    rcases List.mem_append.mp hp with hp | hp
    · exact hlines p hp
    · simp only [List.mem_singleton] at hp
      subst hp; simp
  rw [List.filter_append]
  rw [List.filter_eq_self.mpr (fun a ha => by
    simpa using hlnn a ha)]
  rw [show List.filter (fun l => decide (l ≠ [])) [([] : List Char)] = [] from rfl]
  rw [List.append_nil]
  have hrows : (rows.map lineOfCells).map
      (fun l => (splitCh ',' l).map String.mk) = rows := by
    rw [List.map_map]
    have hid : ∀ r ∈ rows,
        ((fun l => (splitCh ',' l).map String.mk) ∘ lineOfCells) r = r := by
      intro r hr
      simp only [Function.comp_apply]
      rw [splitCh_lineOfCells r (hrowsne r hr) (hgr r hr), map_mk_map_data]
    calc rows.map ((fun l => (splitCh ',' l).map String.mk) ∘ lineOfCells)
        = rows.map id := List.map_congr_left hid
      _ = rows := List.map_id rows
  simp only [hrows, splitCh_lineOfCells cols hcols hgc, map_mk_map_data]

/-! ## The inner join (`pd.merge(df1, df2, on=common_column, how="inner")`,
main.py line 121)

Columns: all of the left frame's columns (the key stays in place), then
the right frame's columns minus the key; non-key columns occurring in
both frames get the pandas default suffixes.  Rows: for each left row in
order, one output row per right row with an equal key value, in right
order (the cross-product for repeated keys). -/

def pdMergeInner (df1 df2 : Table) (c : String) : Table :=
  let i1 := df1.cols.indexOf c
  let i2 := df2.cols.indexOf c
  { cols :=
      df1.cols.map (fun x => if x ≠ c ∧ x ∈ df2.cols then x ++ "_x" else x)
        ++ (df2.cols.eraseIdx i2).map
            (fun x => if x ≠ c ∧ x ∈ df1.cols then x ++ "_y" else x)
  , rows :=
      df1.rows.flatMap (fun r1 =>
        (df2.rows.filter (fun r2 => r2[i2]? == r1[i1]?)).map
          (fun r2 => r1 ++ r2.eraseIdx i2)) }

/-- Number of rows whose cell at position `i` is the value `k`. -/
def keyCount (rows : List (List String)) (i : Nat) (k : String) : Nat :=
  (rows.filter (fun r => r[i]? == some k)).length

theorem keyCount_nil (i : Nat) (k : String) : keyCount [] i k = 0 := rfl

theorem keyCount_cons (r : List String) (rows : List (List String)) (i : Nat)
    (k : String) :
    keyCount (r :: rows) i k
      = (if r[i]? = some k then 1 else 0) + keyCount rows i k := by
  simp only [keyCount, List.filter_cons]
  split
  · next h =>
    rw [if_pos (by simpa using h)]
    simp [Nat.add_comm]
  · next h =>
    rw [if_neg (by simpa using h)]
    simp

theorem keyCount_append (l1 l2 : List (List String)) (i : Nat) (k : String) :
    keyCount (l1 ++ l2) i k = keyCount l1 i k + keyCount l2 i k := by
  simp [keyCount, List.filter_append]

theorem keyCount_map_extend (r1 : List String) (i1 : Nat) (h : i1 < r1.length)
    (k : String) (i2 : Nat) (l : List (List String)) :
    keyCount (l.map (fun r2 => r1 ++ r2.eraseIdx i2)) i1 k
      = if r1[i1]? = some k then l.length else 0 := by
  induction l with
  | nil => simp [keyCount]
  | cons x xs ih =>
    rw [List.map_cons, keyCount_cons, ih, List.getElem?_append_left h]
    split <;> simp [Nat.add_comm]

theorem keyCount_bind_join (rows1 rows2 : List (List String)) (i1 i2 : Nat)
    (k : String) (hlen : ∀ r ∈ rows1, i1 < r.length) :
    keyCount (rows1.flatMap (fun r1 =>
        (rows2.filter (fun r2 => r2[i2]? == r1[i1]?)).map
          (fun r2 => r1 ++ r2.eraseIdx i2))) i1 k
      = keyCount rows1 i1 k * keyCount rows2 i2 k := by
  induction rows1 with
  | nil => simp [keyCount]
  | cons r1 rest ih =>
    rw [List.flatMap_cons, keyCount_append, keyCount_cons,
      keyCount_map_extend r1 i1 (hlen r1 (by simp)) k i2,
      ih (fun r hr => hlen r (List.mem_cons_of_mem r1 hr))]
    by_cases hk : r1[i1]? = some k
    · rw [if_pos hk, if_pos hk]
      have hfilter : rows2.filter (fun r2 => r2[i2]? == r1[i1]?)
          = rows2.filter (fun r2 => r2[i2]? == some k) := by
        apply List.filter_congr
        intro r2 _
        rw [hk]
      rw [hfilter]
      have : (rows2.filter (fun r2 => r2[i2]? == some k)).length
          = keyCount rows2 i2 k := rfl
      rw [this, Nat.add_mul, Nat.one_mul]
    · rw [if_neg hk, if_neg hk]
      simp

theorem pdMergeInner_keyCount (t1 t2 : Table) (c : String)
    (h1 : t1.WF) (hc1 : c ∈ t1.cols) (k : String) :
    keyCount (pdMergeInner t1 t2 c).rows (t1.cols.indexOf c) k
      = keyCount t1.rows (t1.cols.indexOf c) k
          * keyCount t2.rows (t2.cols.indexOf c) k := by
  have hi1lt : t1.cols.indexOf c < t1.cols.length :=
    List.indexOf_lt_length.mpr hc1
  exact keyCount_bind_join t1.rows t2.rows _ _ k
    (fun r hr => by rw [h1 r hr]; exact hi1lt)

theorem pdMergeInner_mem_intro (t1 t2 : Table) (c : String)
    (r1 r2 : List String) (h1 : r1 ∈ t1.rows) (h2 : r2 ∈ t2.rows)
    (hk : r1[t1.cols.indexOf c]? = r2[t2.cols.indexOf c]?) :
    r1 ++ r2.eraseIdx (t2.cols.indexOf c) ∈ (pdMergeInner t1 t2 c).rows := by
  simp only [pdMergeInner, List.mem_flatMap, List.mem_map, List.mem_filter]
  exact ⟨r1, h1, r2, ⟨h2, beq_iff_eq.mpr hk.symm⟩, rfl⟩

theorem pdMergeInner_mem_elim (t1 t2 : Table) (c : String) (r : List String)
    (hr : r ∈ (pdMergeInner t1 t2 c).rows) :
    ∃ r1, r1 ∈ t1.rows ∧ ∃ r2, r2 ∈ t2.rows
      ∧ r1[t1.cols.indexOf c]? = r2[t2.cols.indexOf c]?
      ∧ r = r1 ++ r2.eraseIdx (t2.cols.indexOf c) := by
  simp only [pdMergeInner, List.mem_flatMap, List.mem_map, List.mem_filter] at hr
  obtain ⟨r1, h1, r2, ⟨h2, hq⟩, rfl⟩ := hr
  exact ⟨r1, h1, r2, h2, (beq_iff_eq.mp hq).symm, rfl⟩

/-! ## Filename extension handling

`os.path.splitext(name)[1]` (the dot-suffix after the last dot, unless
every character before that dot is itself a dot), then `.lower()`, then
Python `str.strip(".")` (drop leading and trailing dots). -/

/-- `os.path.splitext(p)[1]` for a path without directory separators. -/
def splitextExt (p : String) : String :=
  match ((p.data.enum.filter (fun ci => ci.2 = '.')).map (fun ci => ci.1)).getLast? with
  | none => ""
  | some i => if (p.data.take i).any (fun ch => ch ≠ '.') then String.mk (p.data.drop i) else ""

/-- Python `str.strip(".")`: remove leading and trailing dots. -/
def stripDots (s : String) : String :=
  String.mk (((s.data.dropWhile (fun ch => ch = '.')).reverse.dropWhile
    (fun ch => ch = '.')).reverse)

/-- Python `str.lower()`, characterwise ASCII lowering. -/
def pyLower (s : String) : String := String.mk (s.data.map Char.toLower)

/-- The `file_format` computed from a filename: main.py lines 66-67 (upload)
and, identically, lines 153-154 (commit). -/
def extFormat (name : String) : String := stripDots (pyLower (splitextExt name))

/-! ## Stores, errors and handler state -/

/-- A stored blob.  CSV bytes are modelled verbatim; Excel bytes are an
opaque codec capability carrying the encoded table (spec §1: spreadsheet
parsing internals are out of scope). -/
inductive Blob where
  | csvB (s : String)
  | xlsxB (t : Table)
deriving DecidableEq, Repr

/-- A raised Python exception, by class name. -/
structure PyExc where
  kind : String
  msg : String
deriving DecidableEq, Repr

/-- What a handler invocation produces on failure: an `HTTPException`
with a status code and detail, or an exception that escapes the handler
uncaught (FastAPI turns it into a plain 500 response). -/
inductive Err where
  | httpExc (status : Nat) (detail : String)
  | raisedExc (kind : String) (detail : String)
deriving DecidableEq, Repr

/-- One row of the `files` catalog table (database.py `FileMetadata`). -/
structure FileRecord where
  id : Nat
  filename : String
  format : String
deriving DecidableEq, Repr

/-- The shared mutable state: the Metadata Catalog (with its id
sequence), the Object Store and the Result Cache (key, payload,
absolute expiry timestamp). -/
structure St where
  catalog : List FileRecord
  nextId : Nat
  store : List (String × Blob)
  cache : List (String × List (List (String × String)) × Nat)
deriving DecidableEq, Repr

/-- Object-store lookup: first (most recent) write under the key. -/
def storeGet (store : List (String × Blob)) (k : String) : Option Blob :=
  (store.find? (fun e => e.1 == k)).map (fun e => e.2)

/-- Object-store write: `put_object` overwrites the key. -/
def storePut (store : List (String × Blob)) (k : String) (b : Blob) :
    List (String × Blob) := (k, b) :: store

/-- `InMemoryBackend.get`: present and unexpired (`ttl_ts >= now`),
otherwise absent; never-stored and expired keys are indistinguishable. -/
def cacheGet (cache : List (String × List (List (String × String)) × Nat))
    (now : Nat) (k : String) : Option (List (List (String × String))) :=
  match cache.find? (fun e => e.1 == k) with
  | some (_, v, e) => if now ≤ e then some v else none
  | none => none

/-- `InMemoryBackend.set` with TTL: expiry is `now + expire`. -/
def cacheSet (cache : List (String × List (List (String × String)) × Nat))
    (k : String) (v : List (List (String × String))) (expiresAt : Nat) :
    List (String × List (List (String × String)) × Nat) :=
  (k, v, expiresAt) :: cache

/-- `InMemoryBackend.delete`: idempotent removal of the key. -/
def cacheDelete (cache : List (String × List (List (String × String)) × Nat))
    (k : String) : List (String × List (List (String × String)) × Nat) :=
  cache.filter (fun e => e.1 ≠ k)

/-- Names present in the catalog (the UNIQUE-indexed `filename` column). -/
def catalogNames (catalog : List FileRecord) : List String :=
  catalog.map (fun r => r.filename)

/-- Catalog lookup by id (`db.query(FileMetadata).filter(...).first()`). -/
def catalogGet (catalog : List FileRecord) (i : Nat) : Option FileRecord :=
  catalog.find? (fun r => r.id == i)

/-- `db.add` + `db.commit` of a new `FileMetadata` row: the UNIQUE
constraint on `filename` (database.py line 23) makes the transaction
fail on a name collision instead of overwriting. -/
def catalogInsert (s : St) (name fmt : String) : Except Unit (FileRecord × St) :=
  if name ∈ catalogNames s.catalog then .error ()
  else
    let r : FileRecord := ⟨s.nextId, name, fmt⟩
    .ok (r, { s with catalog := s.catalog ++ [r], nextId := s.nextId + 1 })

/-- The MinIO client handle; operational details of a healthy client are
not modelled, only its presence. -/
abbrev MinioHandle := Unit

/-- The exception message when a method is invoked on the `None` global. -/
def noneTypeMsg : String := "NoneType object has no attribute"

/-- minio_service.py lines 48-51: module-level construction; a
`ConnectionError` (unreachable service or failed bucket check) is caught
and the global is silently set to `None`. -/
def minio_service (reachable : Bool) : Option MinioHandle :=
  if reachable then some () else none

/-- Calling `minio_service.upload_file(...)`: on the `None` global this
raises `AttributeError`; with a live handle the write succeeds. -/
def minioUpload (h : Option MinioHandle) (store : List (String × Blob))
    (name : String) (b : Blob) : Except PyExc (List (String × Blob)) :=
  match h with
  | none => .error ⟨"AttributeError", noneTypeMsg⟩
  | some _ => .ok (storePut store name b)

/-- Calling `minio_service.fetch_file(...)`: `AttributeError` on the
`None` global, `S3Error` when the key is absent from the store. -/
def minioFetch (h : Option MinioHandle) (store : List (String × Blob))
    (name : String) : Except PyExc Blob :=
  match h with
  | none => .error ⟨"AttributeError", noneTypeMsg⟩
  | some _ =>
    match storeGet store name with
    | some b => .ok b
    | none => .error ⟨"S3Error", "NoSuchKey"⟩

/-- main.py lines 32-42 `get_file_dataframe`: dispatch on the lowercased
format tag; csv parses the blob as CSV, xlsx/xls uses the Excel codec;
anything else is the wrapped `ValueError`.  Every failure surfaces as an
`HTTPException(400, "Error reading file into DataFrame: ...")`. -/
instance {e a : Type} [DecidableEq e] [DecidableEq a] : DecidableEq (Except e a) :=
  fun x y =>
    match x, y with
    | .error u, .error v => decidable_of_iff (u = v) (by simp)
    | .ok u, .ok v => decidable_of_iff (u = v) (by simp)
    | .error _, .ok _ => isFalse (fun hc => Except.noConfusion hc)
    | .ok _, .error _ => isFalse (fun hc => Except.noConfusion hc)

def get_file_dataframe (minio_data : Blob) (file_format : String) : Except Err Table :=
  if pyLower file_format = "csv" then
    match minio_data with
    | .csvB s =>
      match csvDecodeE s with
      | .ok t => .ok t
      | .error m => .error (.httpExc 400 ("Error reading file into DataFrame: " ++ m))
    | .xlsxB _ =>
      .error (.httpExc 400 ("Error reading file into DataFrame: " ++ "not parseable as CSV"))
  else if pyLower file_format = "xlsx" ∨ pyLower file_format = "xls" then
    match minio_data with
    | .xlsxB t => .ok t
    | .csvB _ =>
      .error (.httpExc 400 ("Error reading file into DataFrame: " ++ "not a valid Excel file"))
  else .error (.httpExc 400 "Error reading file into DataFrame: Unsupported file format.")

/-- The response of a successful merge (`MergedPreviewResponse`). -/
structure MergeResp where
  cache_key : String
  preview : List (List (String × String))
  message : String
deriving DecidableEq, Repr

/-- main.py lines 59-88 `upload_file`: validate the lowercased extension
against csv/xlsx, write the raw bytes to MinIO (`ConnectionError` maps
to 503, any other exception to 500), then insert the catalog row (any
database failure — including the UNIQUE violation on a duplicate name —
maps to a generic 500).  Returns the handler result together with the
state as left behind. -/
def upload_file (minio : Option MinioHandle) (s : St) (filename : String)
    (content : Blob) : Except Err FileRecord × St :=
  let file_format := extFormat filename
  if file_format ∉ ["csv", "xlsx"] then
    (.error (.httpExc 400 "Invalid file format."), s)
  else
    match minioUpload minio s.store filename content with
    | .error e =>
      if e.kind = "ConnectionError" then
        (.error (.httpExc 503 ("MinIO Service Unavailable: " ++ e.msg)), s)
      else
        (.error (.httpExc 500 ("Failed to upload file to MinIO: " ++ e.msg)), s)
    | .ok store2 =>
      let s1 : St := { s with store := store2 }
      match catalogInsert s1 filename file_format with
      | .error _ =>
        (.error (.httpExc 500 "Database error: Failed to store file metadata."), s1)
      | .ok (r, s2) => (.ok r, s2)

/-- The detail string of an error, as interpolated into a wrapping
`HTTPException` message. -/
def errDetail : Err → String
  | .httpExc _ d => d
  | .raisedExc _ d => d

/-- main.py lines 96-135 `merge_files_temporarily`: resolve both ids,
fetch and decode both blobs (any failure there — including the 400
raised inside `get_file_dataframe`, which the enclosing try swallows —
becomes a 500), check the join column in both tables, inner-join,
serialise record-oriented, stage under the fresh key with a one-hour
TTL, and answer with the key, a five-row preview and a status line. -/
def merge_files_temporarily (minio : Option MinioHandle) (s : St) (now : Nat)
    (freshKey : String) (file_id_1 file_id_2 : Nat) (common_column : String) :
    Except Err MergeResp × St :=
  match catalogGet s.catalog file_id_1, catalogGet s.catalog file_id_2 with
  | some meta1, some meta2 =>
    (match minioFetch minio s.store meta1.filename with
     | .error e =>
       (.error (.httpExc 500 ("Error fetching/reading files: " ++ e.msg)), s)
     | .ok data1 =>
       match minioFetch minio s.store meta2.filename with
       | .error e =>
         (.error (.httpExc 500 ("Error fetching/reading files: " ++ e.msg)), s)
       | .ok data2 =>
         match get_file_dataframe data1 meta1.format with
         | .error e =>
           (.error (.httpExc 500 ("Error fetching/reading files: " ++ errDetail e)), s)
         | .ok df1 =>
           match get_file_dataframe data2 meta2.format with
           | .error e =>
             (.error (.httpExc 500 ("Error fetching/reading files: " ++ errDetail e)), s)
           | .ok df2 =>
             if common_column ∉ df1.cols ∨ common_column ∉ df2.cols then
               (.error (.httpExc 400
                 ("Common column \x27" ++ common_column ++ "\x27 not found.")), s)
             else
               let merged_df := pdMergeInner df1 df2 common_column
               let merged_json := toRecords merged_df
               let s1 : St := { s with cache := cacheSet s.cache freshKey merged_json (now + 3600) }
               (.ok { cache_key := freshKey
                    , preview := toRecords { merged_df with rows := merged_df.rows.take 5 }
                    , message := "Merged dataset cached in memory with key: " ++ freshKey }, s1))
  | _, _ => (.error (.httpExc 404 "One or both file IDs not found."), s)

/-- Encoding dispatch of the commit handler (main.py lines 159-166):
csv and xlsx/xls are supported, anything else is the 400. -/
def encodeFor (file_format : String) (t : Table) : Option Blob :=
  if file_format = "csv" then some (.csvB (csvEncode t))
  else if file_format = "xlsx" ∨ file_format = "xls" then some (.xlsxB t)
  else none

/-- main.py lines 137-182 `save_merged_dataset`: read the staged payload
(absent or expired both surface as the one 404), deserialise, derive the
target format from the new filename's lowercased extension (csv, xlsx
and xls supported; otherwise 400 before any write), encode and write the
blob, then insert the catalog row — this insert is NOT wrapped in
try/except, so a failure (e.g. the UNIQUE violation) escapes the handler
before the cache delete runs; only on success is the staged entry
deleted. -/
def save_merged_dataset (minio : Option MinioHandle) (s : St) (now : Nat)
    (cache_key new_filename : String) : Except Err FileRecord × St :=
  match cacheGet s.cache now cache_key with
  | none => (.error (.httpExc 404 "Merged dataset not found or has expired in cache."), s)
  | some merged_json =>
    let merged_df := fromRecords merged_json
    let file_format := extFormat new_filename
    match encodeFor file_format merged_df with
    | none => (.error (.httpExc 400 "New file format must be CSV or XLSX."), s)
    | some blob =>
      match minioUpload minio s.store new_filename blob with
      | .error e =>
        (.error (.httpExc 500 ("Failed to upload merged file to MinIO: " ++ e.msg)), s)
      | .ok store2 =>
        let s1 : St := { s with store := store2 }
        match catalogInsert s1 new_filename file_format with
        | .error _ =>
          (.error (.raisedExc "IntegrityError"
            "duplicate key value violates unique constraint"), s1)
        | .ok (r, s2) => (.ok r, { s2 with cache := cacheDelete s2.cache cache_key })

/-! ## Preservation lemmas for the join -/

theorem toRecords_take (t : Table) (n : Nat) :
    toRecords { t with rows := t.rows.take n } = (toRecords t).take n := by
  simp [toRecords, List.map_take]

theorem pdMergeInner_WF (t1 t2 : Table) (c : String)
    (h1 : t1.WF) (h2 : t2.WF) (hc2 : c ∈ t2.cols) : (pdMergeInner t1 t2 c).WF := by
  intro r hr
  obtain ⟨r1, hr1, r2, hr2, _, rfl⟩ := pdMergeInner_mem_elim t1 t2 c r hr
  have hi2 : t2.cols.indexOf c < t2.cols.length := List.indexOf_lt_length.mpr hc2
  have hcols : (pdMergeInner t1 t2 c).cols.length
      = t1.cols.length + (t2.cols.length - 1) := by
    simp [pdMergeInner, List.length_eraseIdx_of_lt hi2, List.length_erase_of_mem hc2]
  rw [hcols, List.length_append, h1 r1 hr1,
    List.length_eraseIdx_of_lt (by rw [h2 r2 hr2]; exact hi2), h2 r2 hr2]

theorem goodStr_append_tag (a tag : String) (hg : goodStr a)
    (htag : ',' ∉ tag.data ∧ '\n' ∉ tag.data) : goodStr (a ++ tag) := by
  have hdata : (a ++ tag).data = a.data ++ tag.data := rfl
  refine ⟨?_, ?_, ?_⟩
  · rw [hdata]
    intro hcon
    exact hg.1 (List.append_eq_nil.mp hcon).1
  · rw [hdata]
    intro hcon
    rcases List.mem_append.mp hcon with h | h
    · exact hg.2.1 h
    · exact htag.1 h
  · rw [hdata]
    intro hcon
    rcases List.mem_append.mp hcon with h | h
    · exact hg.2.2 h
    · exact htag.2 h

theorem goodStr_suffixed (x : String) (c : String) (cols : List String)
    (tag : String) (hg : goodStr x)
    (htag : ',' ∉ tag.data ∧ '\n' ∉ tag.data) :
    goodStr (if x ≠ c ∧ x ∈ cols then x ++ tag else x) := by
  split
  · exact goodStr_append_tag x tag hg htag
  · exact hg

theorem pdMergeInner_goodCsv (t1 t2 : Table) (c : String)
    (hg1 : t1.goodCsv) (hg2 : t2.goodCsv) : (pdMergeInner t1 t2 c).goodCsv := by
  constructor
  · intro x hx
    simp only [pdMergeInner, List.mem_append, List.mem_map] at hx
    rcases hx with ⟨y, hy, rfl⟩ | ⟨y, hy, rfl⟩
    · exact goodStr_suffixed y c t2.cols "_x" (hg1.1 y hy) (by decide)
    · exact goodStr_suffixed y c t1.cols "_y"
        (hg2.1 y (List.mem_of_mem_eraseIdx hy)) (by decide)
  · intro r hr x hx
    obtain ⟨r1, hr1, r2, hr2, _, rfl⟩ := pdMergeInner_mem_elim t1 t2 c r hr
    rcases List.mem_append.mp hx with h | h
    · exact hg1.2 r1 hr1 x h
    · exact hg2.2 r2 hr2 x (List.mem_of_mem_eraseIdx h)

theorem pdMergeInner_cols_ne_nil (t1 t2 : Table) (c : String)
    (hc1 : c ∈ t1.cols) : (pdMergeInner t1 t2 c).cols ≠ [] := by
  simp only [pdMergeInner]
  intro hcon
  have h1 := (List.append_eq_nil.mp hcon).1
  rw [List.map_eq_nil_iff] at h1
  rw [h1] at hc1
  exact List.not_mem_nil c hc1

/-! ## Catalog uniqueness machinery -/

theorem catalogInsert_nodup (s : St) (name fmt : String) (r : FileRecord)
    (s2 : St) (h : (catalogNames s.catalog).Nodup)
    (hins : catalogInsert s name fmt = .ok (r, s2)) :
    (catalogNames s2.catalog).Nodup := by
  unfold catalogInsert at hins
  split at hins
  · exact Except.noConfusion hins
  · next hmem =>
    injection hins with h2
    injection h2 with ha hb
    subst hb
    show (catalogNames (s.catalog ++ [⟨s.nextId, name, fmt⟩])).Nodup
    have : catalogNames (s.catalog ++ [⟨s.nextId, name, fmt⟩])
        = (catalogNames s.catalog).concat name := by
      simp [catalogNames, List.concat_eq_append]
    rw [this]
    exact List.Nodup.concat hmem h

/-! ## Evaluation lemmas for the handlers -/

theorem merge_ok_eq (s : St) (now : Nat) (freshKey : String)
    (file_id_1 file_id_2 : Nat) (c : String) (m1 m2 : FileRecord)
    (b1 b2 : Blob) (df1 df2 : Table)
    (hm1 : catalogGet s.catalog file_id_1 = some m1)
    (hm2 : catalogGet s.catalog file_id_2 = some m2)
    (hb1 : storeGet s.store m1.filename = some b1)
    (hb2 : storeGet s.store m2.filename = some b2)
    (ht1 : get_file_dataframe b1 m1.format = .ok df1)
    (ht2 : get_file_dataframe b2 m2.format = .ok df2)
    (hc1 : c ∈ df1.cols) (hc2 : c ∈ df2.cols) :
    merge_files_temporarily (some ()) s now freshKey file_id_1 file_id_2 c
      = (.ok { cache_key := freshKey
             , preview := (toRecords (pdMergeInner df1 df2 c)).take 5
             , message := "Merged dataset cached in memory with key: " ++ freshKey }
        , { s with cache :=
              (freshKey, toRecords (pdMergeInner df1 df2 c), now + 3600) :: s.cache }) := by
  have hf1 : minioFetch (some ()) s.store m1.filename = .ok b1 := by
    simp [minioFetch, hb1]
  have hf2 : minioFetch (some ()) s.store m2.filename = .ok b2 := by
    simp [minioFetch, hb2]
  have hcol : ¬(c ∉ df1.cols ∨ c ∉ df2.cols) := fun hor =>
    hor.elim (fun hno => hno hc1) (fun hno => hno hc2)
  simp only [merge_files_temporarily, hm1, hm2, hf1, hf2, ht1, ht2]
  rw [if_neg hcol]
  rw [toRecords_take]
  rfl

theorem save_notfound_eq (minio : Option MinioHandle) (s : St) (now : Nat)
    (cache_key new_filename : String)
    (hget : cacheGet s.cache now cache_key = none) :
    save_merged_dataset minio s now cache_key new_filename
      = (.error (.httpExc 404 "Merged dataset not found or has expired in cache."), s) := by
  simp only [save_merged_dataset, hget]

theorem save_badformat_eq (minio : Option MinioHandle) (s : St) (now : Nat)
    (cache_key new_filename : String)
    (payload : List (List (String × String)))
    (hget : cacheGet s.cache now cache_key = some payload)
    (hext : extFormat new_filename ∉ ["csv", "xlsx", "xls"]) :
    save_merged_dataset minio s now cache_key new_filename
      = (.error (.httpExc 400 "New file format must be CSV or XLSX."), s) := by
  simp only [List.mem_cons, List.not_mem_nil, or_false, not_or] at hext
  have henc : encodeFor (extFormat new_filename) (fromRecords payload) = none := by
    simp only [encodeFor, if_neg hext.1]
    rw [if_neg (fun hor => hor.elim hext.2.1 hext.2.2)]
  simp only [save_merged_dataset, hget, henc]

theorem save_insert_fail_eq (s : St) (now : Nat)
    (cache_key new_filename : String)
    (payload : List (List (String × String))) (blob : Blob)
    (hget : cacheGet s.cache now cache_key = some payload)
    (henc : encodeFor (extFormat new_filename) (fromRecords payload) = some blob)
    (hdup : new_filename ∈ catalogNames s.catalog) :
    save_merged_dataset (some ()) s now cache_key new_filename
      = (.error (.raisedExc "IntegrityError"
           "duplicate key value violates unique constraint"),
         { s with store := storePut s.store new_filename blob }) := by
  simp only [save_merged_dataset, hget, henc, minioUpload]
  have hmem : new_filename ∈
      catalogNames ({ s with store := storePut s.store new_filename blob } : St).catalog := hdup
  simp only [catalogInsert, if_pos hmem]

theorem save_insert_ok_eq (s : St) (now : Nat)
    (cache_key new_filename : String)
    (payload : List (List (String × String))) (blob : Blob)
    (hget : cacheGet s.cache now cache_key = some payload)
    (henc : encodeFor (extFormat new_filename) (fromRecords payload) = some blob)
    (hfree : new_filename ∉ catalogNames s.catalog) :
    save_merged_dataset (some ()) s now cache_key new_filename
      = (.ok ⟨s.nextId, new_filename, extFormat new_filename⟩,
         { catalog := s.catalog ++ [⟨s.nextId, new_filename, extFormat new_filename⟩]
         , nextId := s.nextId + 1
         , store := storePut s.store new_filename blob
         , cache := cacheDelete s.cache cache_key }) := by
  simp only [save_merged_dataset, hget, henc, minioUpload]
  have hmem : new_filename ∉
      catalogNames ({ s with store := storePut s.store new_filename blob } : St).catalog := hfree
  simp only [catalogInsert, if_neg hmem]

theorem cacheGet_cons_self (cache : List (String × List (List (String × String)) × Nat))
    (k : String) (v : List (List (String × String))) (e now : Nat) (h : now ≤ e) :
    cacheGet ((k, v, e) :: cache) now k = some v := by
  simp [cacheGet, List.find?_cons, if_pos h]

theorem storeGet_put_self (store : List (String × Blob)) (k : String) (b : Blob) :
    storeGet (storePut store k b) k = some b := by
  simp [storeGet, storePut, List.find?_cons]

theorem merge_catalog_eq (minio : Option MinioHandle) (s : St) (now : Nat)
    (freshKey : String) (file_id_1 file_id_2 : Nat) (common_column : String) :
    (merge_files_temporarily minio s now freshKey file_id_1 file_id_2
      common_column).2.catalog = s.catalog := by
  unfold merge_files_temporarily
  split
  · split
    · rfl
    · split
      · rfl
      · split
        · rfl
        · split
          · rfl
          · split
            · rfl
            · rfl
  · rfl

theorem upload_nodup (minio : Option MinioHandle) (s : St) (filename : String)
    (content : Blob) (h : (catalogNames s.catalog).Nodup) :
    (catalogNames (upload_file minio s filename content).2.catalog).Nodup := by
  cases hmu : minioUpload minio s.store filename content with
  | error e =>
    simp only [upload_file, hmu]
    split
    · exact h
    · split <;> exact h
  | ok store2 =>
    cases hins : catalogInsert { s with store := store2 } filename
        (extFormat filename) with
    | error u =>
      simp only [upload_file, hmu, hins]
      split <;> exact h
    | ok pair =>
      obtain ⟨r, s2⟩ := pair
      simp only [upload_file, hmu, hins]
      split
      · exact h
      · exact catalogInsert_nodup { s with store := store2 } filename
          (extFormat filename) r s2 h hins

theorem save_nodup (minio : Option MinioHandle) (s : St) (now : Nat)
    (cache_key new_filename : String) (h : (catalogNames s.catalog).Nodup) :
    (catalogNames (save_merged_dataset minio s now cache_key new_filename).2.catalog).Nodup := by
  cases hget : cacheGet s.cache now cache_key with
  | none => simp only [save_merged_dataset, hget]; exact h
  | some payload =>
    cases henc : encodeFor (extFormat new_filename) (fromRecords payload) with
    | none => simp only [save_merged_dataset, hget, henc]; exact h
    | some blob =>
      cases hmu : minioUpload minio s.store new_filename blob with
      | error e => simp only [save_merged_dataset, hget, henc, hmu]; exact h
      | ok store2 =>
        cases hins : catalogInsert { s with store := store2 } new_filename
            (extFormat new_filename) with
        | error u =>
          simp only [save_merged_dataset, hget, henc, hmu, hins]
          exact h
        | ok pair =>
          obtain ⟨r, s2⟩ := pair
          simp only [save_merged_dataset, hget, henc, hmu, hins]
          exact catalogInsert_nodup { s with store := store2 } new_filename
            (extFormat new_filename) r s2 h hins

/-! ## Sample data used by witnesses -/

/-- Left sample table (spec §8 join-correctness fixture). -/
def sampleT1 : Table := ⟨["id", "x"], [["1", "a"], ["2", "b"]]⟩

/-- Right sample table (spec §8 join-correctness fixture). -/
def sampleT2 : Table := ⟨["id", "y"], [["1", "p"], ["3", "q"]]⟩

/-- A state with the two sample tables registered and stored as CSV. -/
def sampleSt : St :=
  { catalog := [⟨1, "a.csv", "csv"⟩, ⟨2, "b.csv", "csv"⟩]
  , nextId := 3
  , store := [("a.csv", .csvB (csvEncode sampleT1)), ("b.csv", .csvB (csvEncode sampleT2))]
  , cache := [] }

/-- The empty starting state. -/
def emptySt : St := { catalog := [], nextId := 1, store := [], cache := [] }

/-- A state whose cache stages one single-row payload under key `k`
expiring at time 100. -/
def stagedSt : St :=
  { catalog := [], nextId := 1, store := []
  , cache := [("k", [[("a", "1")]], 100)] }

/-- Like `stagedSt`, but the catalog already holds the name the commit
will try to insert. -/
def stagedDupSt : St :=
  { catalog := [⟨1, "dup.csv", "csv"⟩], nextId := 2, store := []
  , cache := [("k", [[("a", "1")]], 100)] }

/-! ## The claims -/

/-- C2: for every pair of decoded tables and every joinColumn present in
both, the merge computes a standard relational inner join on the column:
exactly the rows whose key value appears in both tables survive, paired
by equal key value, and a repeated key value produces the full
cross-product of matching rows (no deduplication, no first-match-only
shortcut).  Stated as: (1) for every key value, the number of joined
rows carrying it is the product of its multiplicities in the two inputs;
(2) every matching pair contributes its combined row; (3) every joined
row arises from a matching pair. -/
theorem c2_inner_join_cross_product (t1 t2 : Table) (c : String)
    (h1 : t1.WF) (h2 : t2.WF) (hc1 : c ∈ t1.cols) (hc2 : c ∈ t2.cols) :
    (∀ k : String, keyCount (pdMergeInner t1 t2 c).rows (t1.cols.indexOf c) k
        = keyCount t1.rows (t1.cols.indexOf c) k
            * keyCount t2.rows (t2.cols.indexOf c) k)
    ∧ (∀ r1 ∈ t1.rows, ∀ r2 ∈ t2.rows,
        r1[t1.cols.indexOf c]? = r2[t2.cols.indexOf c]? →
        r1 ++ r2.eraseIdx (t2.cols.indexOf c) ∈ (pdMergeInner t1 t2 c).rows)
    ∧ (∀ r ∈ (pdMergeInner t1 t2 c).rows, ∃ r1, r1 ∈ t1.rows ∧ ∃ r2, r2 ∈ t2.rows
        ∧ r1[t1.cols.indexOf c]? = r2[t2.cols.indexOf c]?
        ∧ r = r1 ++ r2.eraseIdx (t2.cols.indexOf c)) :=
  ⟨pdMergeInner_keyCount t1 t2 c h1 hc1,
   fun r1 hr1 r2 hr2 hk => pdMergeInner_mem_intro t1 t2 c r1 r2 hr1 hr2 hk,
   fun r hr => pdMergeInner_mem_elim t1 t2 c r hr⟩

/-- Witness for C2 at the spec §8 fixtures (duplicate keys would
multiply; here each key is unique so the count for "1" is 1·1). -/
theorem c2_inner_join_cross_product_witness :
    (∀ k : String, keyCount (pdMergeInner sampleT1 sampleT2 "id").rows
          (sampleT1.cols.indexOf "id") k
        = keyCount sampleT1.rows (sampleT1.cols.indexOf "id") k
            * keyCount sampleT2.rows (sampleT2.cols.indexOf "id") k)
    ∧ (∀ r1 ∈ sampleT1.rows, ∀ r2 ∈ sampleT2.rows,
        r1[sampleT1.cols.indexOf "id"]? = r2[sampleT2.cols.indexOf "id"]? →
        r1 ++ r2.eraseIdx (sampleT2.cols.indexOf "id")
          ∈ (pdMergeInner sampleT1 sampleT2 "id").rows)
    ∧ (∀ r ∈ (pdMergeInner sampleT1 sampleT2 "id").rows,
        ∃ r1, r1 ∈ sampleT1.rows ∧ ∃ r2, r2 ∈ sampleT2.rows
        ∧ r1[sampleT1.cols.indexOf "id"]? = r2[sampleT2.cols.indexOf "id"]?
        ∧ r = r1 ++ r2.eraseIdx (sampleT2.cols.indexOf "id")) :=
  c2_inner_join_cross_product sampleT1 sampleT2 "id"
    (by decide) (by decide) (by decide) (by decide)

/-- C7: a `cacheKey` absent from the Result Cache — never stored, or
stored but past its expiry — makes commit fail with the single 404
"Merged dataset not found or has expired in cache." and leave the state
untouched; since the handler's outcome is the same fixed value in both
situations, the two causes are indistinguishable to the caller. -/
theorem c7_commit_absent_expired_404 (minio : Option MinioHandle) (s : St)
    (now : Nat) (cache_key new_filename : String) :
    (s.cache.find? (fun e => e.1 == cache_key) = none →
      cacheGet s.cache now cache_key = none)
    ∧ (∀ v e, s.cache.find? (fun en => en.1 == cache_key) = some (cache_key, v, e) →
        e < now → cacheGet s.cache now cache_key = none)
    ∧ (cacheGet s.cache now cache_key = none →
        save_merged_dataset minio s now cache_key new_filename
          = (.error (.httpExc 404 "Merged dataset not found or has expired in cache."), s)) := by
  refine ⟨?_, ?_, ?_⟩
  · intro h
    simp [cacheGet, h]
  · intro v e hfind hlt
    simp [cacheGet, hfind, Nat.not_le.mpr hlt]
  · intro h
    exact save_notfound_eq minio s now cache_key new_filename h

/-- Witness for C7: the same 404 for a key expired at time 100 queried
at 200 and for a key never staged at all. -/
theorem c7_commit_absent_expired_404_witness :
    save_merged_dataset (some ()) stagedSt 200 "k" "out.csv"
      = (.error (.httpExc 404 "Merged dataset not found or has expired in cache."), stagedSt)
    ∧ save_merged_dataset (some ()) emptySt 0 "never-issued" "out.csv"
      = (.error (.httpExc 404 "Merged dataset not found or has expired in cache."), emptySt) :=
  ⟨(c7_commit_absent_expired_404 (some ()) stagedSt 200 "k" "out.csv").2.2 (by decide),
   (c7_commit_absent_expired_404 (some ()) emptySt 0 "never-issued" "out.csv").2.2 (by decide)⟩

/-- C9: a successful merge stages the full serialised joined table under
the supplied fresh cache key with expiry exactly one hour (3600 seconds)
from now, and returns that key together with a preview that is the first
5 rows of the joined table in the same record-oriented shape and the
human-readable status message naming the key. -/
theorem c9_merge_stages_and_previews (s : St) (now : Nat) (freshKey : String)
    (file_id_1 file_id_2 : Nat) (c : String) (m1 m2 : FileRecord)
    (b1 b2 : Blob) (df1 df2 : Table)
    (hm1 : catalogGet s.catalog file_id_1 = some m1)
    (hm2 : catalogGet s.catalog file_id_2 = some m2)
    (hb1 : storeGet s.store m1.filename = some b1)
    (hb2 : storeGet s.store m2.filename = some b2)
    (ht1 : get_file_dataframe b1 m1.format = .ok df1)
    (ht2 : get_file_dataframe b2 m2.format = .ok df2)
    (hc1 : c ∈ df1.cols) (hc2 : c ∈ df2.cols) :
    merge_files_temporarily (some ()) s now freshKey file_id_1 file_id_2 c
      = (.ok { cache_key := freshKey
             , preview := (toRecords (pdMergeInner df1 df2 c)).take 5
             , message := "Merged dataset cached in memory with key: " ++ freshKey }
        , { s with cache :=
              (freshKey, toRecords (pdMergeInner df1 df2 c), now + 3600) :: s.cache }) :=
  merge_ok_eq s now freshKey file_id_1 file_id_2 c m1 m2 b1 b2 df1 df2
    hm1 hm2 hb1 hb2 ht1 ht2 hc1 hc2

/-- Witness for C9 on the sample state. -/
theorem c9_merge_stages_and_previews_witness :
    merge_files_temporarily (some ()) sampleSt 0 "K" 1 2 "id"
      = (.ok { cache_key := "K"
             , preview := (toRecords (pdMergeInner sampleT1 sampleT2 "id")).take 5
             , message := "Merged dataset cached in memory with key: " ++ "K" }
        , { sampleSt with cache :=
              ("K", toRecords (pdMergeInner sampleT1 sampleT2 "id"), 0 + 3600)
                :: sampleSt.cache }) :=
  c9_merge_stages_and_previews sampleSt 0 "K" 1 2 "id"
    ⟨1, "a.csv", "csv"⟩ ⟨2, "b.csv", "csv"⟩
    (.csvB (csvEncode sampleT1)) (.csvB (csvEncode sampleT2)) sampleT1 sampleT2
    (by decide) (by decide) (by decide) (by decide) (by decide) (by decide)
    (by decide) (by decide)

/-- C8: when the join column is missing from either decoded table, the
merge fails with the 400 naming that column and returns the state
unchanged (in particular the Result Cache is untouched — no entry is
read, written or deleted); the check runs after both decodes (a decode
failure preempts it with the wrapped 500 fetch error instead) and before
the join. -/
theorem c8_merge_missing_column (s : St) (now : Nat) (freshKey : String)
    (file_id_1 file_id_2 : Nat) (c : String) (m1 m2 : FileRecord) (b1 b2 : Blob)
    (hm1 : catalogGet s.catalog file_id_1 = some m1)
    (hm2 : catalogGet s.catalog file_id_2 = some m2)
    (hb1 : storeGet s.store m1.filename = some b1)
    (hb2 : storeGet s.store m2.filename = some b2) :
    (∀ df1 df2, get_file_dataframe b1 m1.format = .ok df1 →
      get_file_dataframe b2 m2.format = .ok df2 →
      (c ∉ df1.cols ∨ c ∉ df2.cols) →
      merge_files_temporarily (some ()) s now freshKey file_id_1 file_id_2 c
        = (.error (.httpExc 400
            ("Common column \x27" ++ c ++ "\x27 not found.")), s))
    ∧ (∀ e, get_file_dataframe b1 m1.format = .error e →
      merge_files_temporarily (some ()) s now freshKey file_id_1 file_id_2 c
        = (.error (.httpExc 500 ("Error fetching/reading files: " ++ errDetail e)), s))
    ∧ (∀ df1 e, get_file_dataframe b1 m1.format = .ok df1 →
      get_file_dataframe b2 m2.format = .error e →
      merge_files_temporarily (some ()) s now freshKey file_id_1 file_id_2 c
        = (.error (.httpExc 500 ("Error fetching/reading files: " ++ errDetail e)), s)) := by
  have hf1 : minioFetch (some ()) s.store m1.filename = .ok b1 := by
    simp [minioFetch, hb1]
  have hf2 : minioFetch (some ()) s.store m2.filename = .ok b2 := by
    simp [minioFetch, hb2]
  refine ⟨?_, ?_, ?_⟩
  · intro df1 df2 ht1 ht2 hmiss
    simp only [merge_files_temporarily, hm1, hm2, hf1, hf2, ht1, ht2]
    rw [if_pos hmiss]
  · intro e ht1
    simp only [merge_files_temporarily, hm1, hm2, hf1, hf2, ht1]
  · intro df1 e ht1 ht2
    simp only [merge_files_temporarily, hm1, hm2, hf1, hf2, ht1, ht2]

/-- Witness for C8: merging the samples on the absent column "zz" gives
the 400 naming "zz" and leaves the state alone. -/
theorem c8_merge_missing_column_witness :
    merge_files_temporarily (some ()) sampleSt 0 "K" 1 2 "zz"
      = (.error (.httpExc 400 ("Common column \x27" ++ "zz" ++ "\x27 not found.")), sampleSt) :=
  (c8_merge_missing_column sampleSt 0 "K" 1 2 "zz"
      ⟨1, "a.csv", "csv"⟩ ⟨2, "b.csv", "csv"⟩
      (.csvB (csvEncode sampleT1)) (.csvB (csvEncode sampleT2))
      (by decide) (by decide) (by decide) (by decide)).1
    sampleT1 sampleT2 (by decide) (by decide) (by decide)

/-- C1 counterexample: the claim says the cache delete is unconditional,
performed even when the catalog insert of step 6 fails.  In the code the
insert is not wrapped in try/except: committing `dup.csv` over a catalog
that already holds that name raises the IntegrityError, the delete on
line 180 is never reached, and the staged entry is still readable
afterwards — not deleted. -/
theorem c1_counterexample :
    (save_merged_dataset (some ()) stagedDupSt 0 "k" "dup.csv").1
      = .error (.raisedExc "IntegrityError" "duplicate key value violates unique constraint")
    ∧ cacheGet (save_merged_dataset (some ()) stagedDupSt 0 "k" "dup.csv").2.cache 0 "k"
      = some [[("a", "1")]] := by decide

/-- C1 (amended): the cache delete in commit is conditional on the
catalog insert succeeding.  If the new name collides, the IntegrityError
escapes before the delete: the handler fails, the blob write persists,
and the cache entry is retained unchanged; only on a successful insert
is the entry deleted. -/
theorem c1_commit_cache_delete_conditional (s : St) (now : Nat)
    (cache_key new_filename : String)
    (payload : List (List (String × String))) (blob : Blob)
    (hget : cacheGet s.cache now cache_key = some payload)
    (henc : encodeFor (extFormat new_filename) (fromRecords payload) = some blob) :
    (new_filename ∈ catalogNames s.catalog →
      save_merged_dataset (some ()) s now cache_key new_filename
        = (.error (.raisedExc "IntegrityError"
             "duplicate key value violates unique constraint"),
           { s with store := storePut s.store new_filename blob }))
    ∧ (new_filename ∉ catalogNames s.catalog →
      save_merged_dataset (some ()) s now cache_key new_filename
        = (.ok ⟨s.nextId, new_filename, extFormat new_filename⟩,
           { catalog := s.catalog ++ [⟨s.nextId, new_filename, extFormat new_filename⟩]
           , nextId := s.nextId + 1
           , store := storePut s.store new_filename blob
           , cache := cacheDelete s.cache cache_key })) :=
  ⟨fun hdup => save_insert_fail_eq s now cache_key new_filename payload blob
      hget henc hdup,
   fun hfree => save_insert_ok_eq s now cache_key new_filename payload blob
      hget henc hfree⟩

/-- Witness for C1 (amended): on the duplicate state the entry survives;
on the collision-free state it is deleted. -/
theorem c1_commit_cache_delete_conditional_witness :
    save_merged_dataset (some ()) stagedDupSt 0 "k" "dup.csv"
      = (.error (.raisedExc "IntegrityError"
           "duplicate key value violates unique constraint"),
         { stagedDupSt with store := storePut stagedDupSt.store "dup.csv" (.csvB "a\n1\n") })
    ∧ save_merged_dataset (some ()) stagedSt 0 "k" "fresh.csv"
      = (.ok ⟨1, "fresh.csv", "csv"⟩,
         { catalog := stagedSt.catalog ++ [⟨1, "fresh.csv", "csv"⟩]
         , nextId := 2
         , store := storePut stagedSt.store "fresh.csv" (.csvB "a\n1\n")
         , cache := cacheDelete stagedSt.cache "k" }) :=
  ⟨(c1_commit_cache_delete_conditional stagedDupSt 0 "k" "dup.csv"
      [[("a", "1")]] (.csvB "a\n1\n") (by decide) (by decide)).1 (by decide),
   (c1_commit_cache_delete_conditional stagedSt 0 "k" "fresh.csv"
      [[("a", "1")]] (.csvB "a\n1\n") (by decide) (by decide)).2 (by decide)⟩

/-- C4 counterexample: when construction fails, minio_service.py lines
48-51 silently set the global handle to `None` instead of reporting
`ServiceUnavailable`; an upload through that handle then fails with the
generic 500 (the `AttributeError` is caught by the catch-all on
main.py line 78), not the 503 of the `ConnectionError` branch. -/
theorem c4_counterexample :
    minio_service false = none
    ∧ (upload_file (minio_service false) emptySt "a.csv" (.csvB "x\n1\n")).1
        = .error (.httpExc 500 ("Failed to upload file to MinIO: " ++ noneTypeMsg))
    ∧ ∀ d : String, (upload_file (minio_service false) emptySt "a.csv" (.csvB "x\n1\n")).1
        ≠ .error (.httpExc 503 d) := by
  refine ⟨by decide, by decide, ?_⟩
  intro d hcon
  have h1 : (upload_file (minio_service false) emptySt "a.csv" (.csvB "x\n1\n")).1
      = .error (.httpExc 500 ("Failed to upload file to MinIO: " ++ noneTypeMsg)) := by decide
  rw [h1] at hcon
  injection hcon with h2
  injection h2 with h3
  exact absurd h3 (by decide)

/-- C4 (amended): construction failure is swallowed into a `None` global
handle — callers receive it with no error signalled at construction —
and an upload attempted through the `None` handle fails with the
generic 500 wrapper (the `AttributeError` is not a `ConnectionError`,
so the 503 branch is not taken). -/
theorem c4_construction_failure_silent :
    (∀ r : Bool, minio_service r = none ↔ r = false)
    ∧ (∀ (s : St) (n : String) (b : Blob), extFormat n ∈ ["csv", "xlsx"] →
        upload_file none s n b
          = (.error (.httpExc 500 ("Failed to upload file to MinIO: " ++ noneTypeMsg)), s)) := by
  constructor
  · intro r
    cases r <;> simp [minio_service]
  · intro s n b hfmt
    simp only [upload_file, minioUpload]
    rw [if_neg (not_not_intro hfmt)]
    rw [if_neg (by decide : ¬("AttributeError" : String) = "ConnectionError")]

/-- Witness for C4 (amended). -/
theorem c4_construction_failure_silent_witness :
    minio_service false = none ∧
    upload_file none emptySt "a.csv" (.csvB "x\n1\n")
      = (.error (.httpExc 500 ("Failed to upload file to MinIO: " ++ noneTypeMsg)), emptySt) :=
  ⟨(c4_construction_failure_silent.1 false).mpr rfl,
   c4_construction_failure_silent.2 emptySt "a.csv" (.csvB "x\n1\n") (by decide)⟩

/-- C5 counterexample: the claim's enumerated set is {csv, xlsx}, but
committing under the name `out.xls` — extension not in that set —
succeeds: main.py line 162 also accepts `xls`. -/
theorem c5_counterexample :
    (save_merged_dataset (some ()) stagedSt 0 "k" "out.xls").1
      = .ok ⟨1, "out.xls", "xls"⟩ := by decide

/-- C5 (amended): commit derives the target format from the new
filename's lowercased extension and fails with the 400 "New file format
must be CSV or XLSX." — before any store or catalog write (the state is
returned unchanged) — whenever that extension is not csv, xlsx or xls. -/
theorem c5_commit_format_check (minio : Option MinioHandle) (s : St) (now : Nat)
    (cache_key new_filename : String)
    (payload : List (List (String × String)))
    (hget : cacheGet s.cache now cache_key = some payload)
    (hext : extFormat new_filename ∉ ["csv", "xlsx", "xls"]) :
    save_merged_dataset minio s now cache_key new_filename
      = (.error (.httpExc 400 "New file format must be CSV or XLSX."), s) :=
  save_badformat_eq minio s now cache_key new_filename payload hget hext

/-- Witness for C5 (amended): a `.txt` target is rejected with the 400
and the state is untouched. -/
theorem c5_commit_format_check_witness :
    save_merged_dataset (some ()) stagedSt 0 "k" "out.txt"
      = (.error (.httpExc 400 "New file format must be CSV or XLSX."), stagedSt) :=
  c5_commit_format_check (some ()) stagedSt 0 "k" "out.txt" [[("a", "1")]]
    (by decide) (by decide)

/-- C6: a second upload under an already-registered filename fails (the
catalog's UNIQUE constraint rejects the insert — surfaced as the 500
database error — rather than silently overwriting) and leaves the
catalog, hence the first registration, unchanged; and filename
uniqueness of the catalog is an invariant preserved by upload, merge and
commit alike. -/
theorem c6_upload_uniqueness :
    (∀ (s : St) (n : String) (b : Blob), extFormat n ∈ ["csv", "xlsx"] →
      n ∈ catalogNames s.catalog →
      upload_file (some ()) s n b
        = (.error (.httpExc 500 "Database error: Failed to store file metadata."),
           { s with store := storePut s.store n b }))
    ∧ (∀ (minio : Option MinioHandle) (s : St) (n : String) (b : Blob),
        (catalogNames s.catalog).Nodup →
        (catalogNames (upload_file minio s n b).2.catalog).Nodup)
    ∧ (∀ (minio : Option MinioHandle) (s : St) (now : Nat) (k : String)
        (i1 i2 : Nat) (c : String), (catalogNames s.catalog).Nodup →
        (catalogNames (merge_files_temporarily minio s now k i1 i2 c).2.catalog).Nodup)
    ∧ (∀ (minio : Option MinioHandle) (s : St) (now : Nat) (k n : String),
        (catalogNames s.catalog).Nodup →
        (catalogNames (save_merged_dataset minio s now k n).2.catalog).Nodup) := by
  refine ⟨?_, upload_nodup, ?_, save_nodup⟩
  · intro s n b hfmt hdup
    simp only [upload_file, minioUpload]
    rw [if_neg (not_not_intro hfmt)]
    have hdup2 : n ∈ catalogNames ({ s with store := storePut s.store n b } : St).catalog := hdup
    simp only [catalogInsert, if_pos hdup2]
  · intro minio s now k i1 i2 c h
    rw [merge_catalog_eq]
    exact h

/-- Witness for C6: re-uploading `a.csv` over the sample state fails with
the database error, the catalog keeps exactly the original records, and
uniqueness is preserved. -/
theorem c6_upload_uniqueness_witness :
    upload_file (some ()) sampleSt "a.csv" (.csvB "q\n2\n")
      = (.error (.httpExc 500 "Database error: Failed to store file metadata."),
         { sampleSt with store := storePut sampleSt.store "a.csv" (.csvB "q\n2\n") })
    ∧ (catalogNames (upload_file (some ()) sampleSt "a.csv" (.csvB "q\n2\n")).2.catalog).Nodup :=
  ⟨c6_upload_uniqueness.1 sampleSt "a.csv" (.csvB "q\n2\n") (by decide) (by decide),
   c6_upload_uniqueness.2.1 (some ()) sampleSt "a.csv" (.csvB "q\n2\n") (by decide)⟩

/-- C10: extension handling is case-insensitive at the public interface:
(1) any record upload registers carries format `extFormat n` — the
lowercased extension with the dots stripped — and that value passed the
csv/xlsx check; (2) `data.CSV` is accepted and stored with format "csv";
(3) decoding dispatches only on the lowercased format tag, so two tags
with the same lowering decode identically; (4) commit likewise stores
the lowercased stripped extension of the new filename. -/
theorem c10_case_insensitive_extensions :
    (∀ (minio : Option MinioHandle) (s : St) (n : String) (b : Blob)
        (r : FileRecord) (s2 : St),
      upload_file minio s n b = (.ok r, s2) →
      r.format = extFormat n ∧ extFormat n ∈ ["csv", "xlsx"])
    ∧ (upload_file (some ()) emptySt "data.CSV" (.csvB "a\n1\n")).1
        = .ok ⟨1, "data.CSV", "csv"⟩
    ∧ (∀ (b : Blob) (f1 f2 : String), pyLower f1 = pyLower f2 →
        get_file_dataframe b f1 = get_file_dataframe b f2)
    ∧ (∀ (minio : Option MinioHandle) (s : St) (now : Nat) (k n : String)
        (r : FileRecord) (s2 : St),
      save_merged_dataset minio s now k n = (.ok r, s2) →
      r.format = extFormat n) := by
  refine ⟨?_, by decide, ?_, ?_⟩
  · intro minio s n b r s2 h
    by_cases hfmt : extFormat n ∈ ["csv", "xlsx"]
    · refine ⟨?_, hfmt⟩
      cases hmu : minioUpload minio s.store n b with
      | error e =>
        simp only [upload_file, hmu] at h
        rw [if_neg (not_not_intro hfmt)] at h
        split at h <;> simp at h
      | ok store2 =>
        cases hins : catalogInsert { s with store := store2 } n (extFormat n) with
        | error u =>
          simp only [upload_file, hmu, hins] at h
          rw [if_neg (not_not_intro hfmt)] at h
          simp at h
        | ok pair =>
          obtain ⟨rr, ss⟩ := pair
          have hrr : rr = ⟨s.nextId, n, extFormat n⟩ := by
            unfold catalogInsert at hins
            split at hins
            · exact Except.noConfusion hins
            · injection hins with hp
              injection hp with ha hb
              exact ha.symm
          simp only [upload_file, hmu, hins] at h
          rw [if_neg (not_not_intro hfmt)] at h
          injection h with hfst hsnd
          injection hfst with hr2
          rw [← hr2, hrr]
    · simp only [upload_file] at h
      rw [if_pos hfmt] at h
      simp at h
  · intro b f1 f2 h
    simp only [get_file_dataframe, h]
  · intro minio s now k n r s2 h
    cases hget : cacheGet s.cache now k with
    | none =>
      simp only [save_merged_dataset, hget] at h
      simp at h
    | some payload =>
      cases henc : encodeFor (extFormat n) (fromRecords payload) with
      | none =>
        simp only [save_merged_dataset, hget, henc] at h
        simp at h
      | some blob =>
        cases hmu : minioUpload minio s.store n blob with
        | error e =>
          simp only [save_merged_dataset, hget, henc, hmu] at h
          simp at h
        | ok store2 =>
          cases hins : catalogInsert { s with store := store2 } n (extFormat n) with
          | error u =>
            simp only [save_merged_dataset, hget, henc, hmu, hins] at h
            simp at h
          | ok pair =>
            obtain ⟨rr, ss⟩ := pair
            have hrr : rr = ⟨s.nextId, n, extFormat n⟩ := by
              unfold catalogInsert at hins
              split at hins
              · exact Except.noConfusion hins
              · injection hins with hp
                injection hp with ha hb
                exact ha.symm
            simp only [save_merged_dataset, hget, henc, hmu, hins] at h
            injection h with hfst hsnd
            injection hfst with hr2
            rw [← hr2, hrr]

/-- Witness for C10: the `data.CSV` upload is accepted with stored
format "csv", and a CSV blob decodes the same under tags "CSV" and
"csv". -/
theorem c10_case_insensitive_extensions_witness :
    (upload_file (some ()) emptySt "data.CSV" (.csvB "a\n1\n")).1
      = .ok ⟨1, "data.CSV", "csv"⟩
    ∧ get_file_dataframe (.csvB "a\n1\n") "CSV" = get_file_dataframe (.csvB "a\n1\n") "csv" :=
  ⟨c10_case_insensitive_extensions.2.1,
   c10_case_insensitive_extensions.2.2.1 (.csvB "a\n1\n") "CSV" "csv" (by decide)⟩

/-- Left fixture whose join with `cexT2` on "id" is empty. -/
def cexT1 : Table := ⟨["id", "x"], [["1", "a"]]⟩

/-- Right fixture with no key in common with `cexT1`. -/
def cexT2 : Table := ⟨["id", "y"], [["2", "p"]]⟩

/-- State holding the two disjoint-key fixtures as CSV files. -/
def cexSt : St :=
  { catalog := [⟨1, "a.csv", "csv"⟩, ⟨2, "b.csv", "csv"⟩]
  , nextId := 3
  , store := [("a.csv", .csvB (csvEncode cexT1)), ("b.csv", .csvB (csvEncode cexT2))]
  , cache := [] }

/-- C3 counterexample: when the inner join is empty, the round trip
fails.  Merging the disjoint-key fixtures stages an empty record list;
commit succeeds and writes the single-newline blob (an empty frame's
CSV), but decoding that blob errors ("no columns to parse"), so it does
not yield the join — which is the nonempty-column, zero-row table. -/
theorem c3_counterexample :
    (merge_files_temporarily (some ()) cexSt 0 "K" 1 2 "id").1
      = .ok { cache_key := "K", preview := []
            , message := "Merged dataset cached in memory with key: K" }
    ∧ (save_merged_dataset (some ())
        (merge_files_temporarily (some ()) cexSt 0 "K" 1 2 "id").2 0 "K" "out.csv").1
        = .ok ⟨3, "out.csv", "csv"⟩
    ∧ storeGet (save_merged_dataset (some ())
        (merge_files_temporarily (some ()) cexSt 0 "K" 1 2 "id").2 0 "K" "out.csv").2.store
        "out.csv" = some (.csvB "\n")
    ∧ csvDecodeE "\n" = .error "No columns to parse from file"
    ∧ pdMergeInner cexT1 cexT2 "id" = ⟨["id", "x", "y"], []⟩ := by decide

/-- C3 (amended): for registered files A and B decoding to CSV-safe
tables, a column present in both, and a nonempty inner join, merging,
committing the returned cacheKey within its TTL under a fresh name with
extension csv, then fetching that name's blob from the Object Store and
decoding it, yields exactly the inner join of the two tables. -/
theorem c3_round_trip (s : St) (now1 now2 : Nat) (freshKey : String)
    (file_id_1 file_id_2 : Nat) (c : String) (m1 m2 : FileRecord)
    (b1 b2 : Blob) (ta tb : Table) (newName : String)
    (hm1 : catalogGet s.catalog file_id_1 = some m1)
    (hm2 : catalogGet s.catalog file_id_2 = some m2)
    (hb1 : storeGet s.store m1.filename = some b1)
    (hb2 : storeGet s.store m2.filename = some b2)
    (ht1 : get_file_dataframe b1 m1.format = .ok ta)
    (ht2 : get_file_dataframe b2 m2.format = .ok tb)
    (hc1 : c ∈ ta.cols) (hc2 : c ∈ tb.cols)
    (hwf1 : ta.WF) (hwf2 : tb.WF) (hg1 : ta.goodCsv) (hg2 : tb.goodCsv)
    (hne : (pdMergeInner ta tb c).rows ≠ [])
    (httl : now2 ≤ now1 + 3600)
    (hext : extFormat newName = "csv")
    (hfree : newName ∉ catalogNames s.catalog) :
    (merge_files_temporarily (some ()) s now1 freshKey file_id_1 file_id_2 c).1
      = .ok { cache_key := freshKey
            , preview := (toRecords (pdMergeInner ta tb c)).take 5
            , message := "Merged dataset cached in memory with key: " ++ freshKey }
    ∧ (save_merged_dataset (some ())
        (merge_files_temporarily (some ()) s now1 freshKey file_id_1 file_id_2 c).2
        now2 freshKey newName).1
        = .ok ⟨s.nextId, newName, "csv"⟩
    ∧ ∃ out,
        storeGet (save_merged_dataset (some ())
          (merge_files_temporarily (some ()) s now1 freshKey file_id_1 file_id_2 c).2
          now2 freshKey newName).2.store newName = some (.csvB out)
        ∧ csvDecodeE out = .ok (pdMergeInner ta tb c) := by
  have hmerge := merge_ok_eq s now1 freshKey file_id_1 file_id_2 c m1 m2 b1 b2
    ta tb hm1 hm2 hb1 hb2 ht1 ht2 hc1 hc2
  have hJwf : (pdMergeInner ta tb c).WF := pdMergeInner_WF ta tb c hwf1 hwf2 hc2
  have hJgood : (pdMergeInner ta tb c).goodCsv := pdMergeInner_goodCsv ta tb c hg1 hg2
  have hJcols : (pdMergeInner ta tb c).cols ≠ [] := pdMergeInner_cols_ne_nil ta tb c hc1
  have hfrom : fromRecords (toRecords (pdMergeInner ta tb c)) = pdMergeInner ta tb c :=
    fromRecords_toRecords (pdMergeInner ta tb c) hJwf hne
  have hget : cacheGet (({ s with cache :=
        (freshKey, toRecords (pdMergeInner ta tb c), now1 + 3600) :: s.cache } : St)).cache
      now2 freshKey = some (toRecords (pdMergeInner ta tb c)) :=
    cacheGet_cons_self s.cache freshKey (toRecords (pdMergeInner ta tb c)) (now1 + 3600)
      now2 httl
  have henc : encodeFor (extFormat newName) (fromRecords (toRecords (pdMergeInner ta tb c)))
      = some (.csvB (csvEncode (pdMergeInner ta tb c))) := by
    rw [hfrom, hext]
    simp [encodeFor]
  have hfree1 : newName ∉ catalogNames (({ s with cache :=
      (freshKey, toRecords (pdMergeInner ta tb c), now1 + 3600) :: s.cache } : St)).catalog :=
    hfree
  have hsave := save_insert_ok_eq
    { s with cache := (freshKey, toRecords (pdMergeInner ta tb c), now1 + 3600) :: s.cache }
    now2 freshKey newName (toRecords (pdMergeInner ta tb c))
    (.csvB (csvEncode (pdMergeInner ta tb c))) hget henc hfree1
  refine ⟨?_, ?_, csvEncode (pdMergeInner ta tb c), ?_, ?_⟩
  · rw [hmerge]
  · simp only [hmerge, hsave]
    rw [hext]
  · simp only [hmerge, hsave]
    exact storeGet_put_self _ newName _
  · exact csvDecodeE_csvEncode (pdMergeInner ta tb c) hJwf hJcols hJgood

/-- Witness for C3 (amended) on the sample state: the committed
`out.csv` blob decodes back to the sample join. -/
theorem c3_round_trip_witness :
    (merge_files_temporarily (some ()) sampleSt 0 "K" 1 2 "id").1
      = .ok { cache_key := "K"
            , preview := (toRecords (pdMergeInner sampleT1 sampleT2 "id")).take 5
            , message := "Merged dataset cached in memory with key: " ++ "K" }
    ∧ (save_merged_dataset (some ())
        (merge_files_temporarily (some ()) sampleSt 0 "K" 1 2 "id").2
        10 "K" "out.csv").1
        = .ok ⟨3, "out.csv", "csv"⟩
    ∧ ∃ out,
        storeGet (save_merged_dataset (some ())
          (merge_files_temporarily (some ()) sampleSt 0 "K" 1 2 "id").2
          10 "K" "out.csv").2.store "out.csv" = some (.csvB out)
        ∧ csvDecodeE out = .ok (pdMergeInner sampleT1 sampleT2 "id") :=
  c3_round_trip sampleSt 0 10 "K" 1 2 "id"
    ⟨1, "a.csv", "csv"⟩ ⟨2, "b.csv", "csv"⟩
    (.csvB (csvEncode sampleT1)) (.csvB (csvEncode sampleT2)) sampleT1 sampleT2 "out.csv"
    (by decide) (by decide) (by decide) (by decide) (by decide) (by decide)
    (by decide) (by decide) (by decide) (by decide) (by decide) (by decide)
    (by decide) (by decide) (by decide) (by decide)

end FileService
